import Mathlib

/-
Shallow embedding of `src/hyperion/utils/dataset.py` (class `Dataset`).

Modelling conventions:
- Python `dict[str, V]` is an insertion-ordered association list
  `List (String × V)` with `dget` (`d[k]`, `none` = KeyError) and `dset`
  (`d[k] = v`: update in place if the key exists, else append).
- `PathLike` values (`str` / `pathlib.Path`) are modelled as `String`
  where only the textual value matters; the pathlib operations used by the
  source (`suffix`, `parent`, `/`) are modelled by `psuffix`, `pparent`
  and `pjoin`.  `resolve_file_path` is the one place where the runtime
  type matters — `file_path.is_file()` is an attribute lookup that only
  `pathlib.Path` provides, and a `str` argument raises AttributeError —
  so its argument is a `PathLike` value tagged with its runtime type, and
  `is_file` on an actual `Path` is an environment predicate.
- The external table collaborators (`SegmentSet.load`, `RecordingSet.load`,
  `FeatureSet.load`, `ClassInfo.load`, `EnrollmentMap.load`,
  `SparseTrialKey.load`, `TrialKey.load`, `TrialNdx.load`) live outside
  `src/`; they are abstracted as an environment `Env T` over an abstract
  table type `T`.  The three trial parsers may fail (the source catches the
  first failure), so they return `Option T`; the other loaders are modelled
  total, since no code in this file handles their failure.
- Python exceptions are modelled with `Except Err`; every accessor also
  returns the list of disk-load events it performed, so that "performs
  disk I/O" is an observable of the model.
-/

inductive Err where
  | keyError
  | typeError
  | assertionError
  | attributeError
  | valueError
  | loadError
  | unsupportedOperation
  | fileNotFoundError
deriving Repr, DecidableEq

/-- Disk-read events: one constructor per external `load` collaborator. -/
inductive Ev where
  | segment_set_load (path : String) (sep : Option String)
  | recording_set_load (path : String) (sep : Option String)
  | feature_set_load (path : String) (sep : Option String)
  | class_info_load (path : String) (sep : Option String)
  | enrollment_map_load (path : String) (sep : Option String)
  | sparse_trial_key_load (path : String)
  | trial_key_load (path : String)
  | trial_ndx_load (path : String)
deriving Repr, DecidableEq

/-- A table write performed during `save`: `sep = some s` models
`v.save(file_path, sep=s)`, `sep = none` models `v.save(file_path)`
(the trials branch, which passes no separator). -/
structure WriteEv where
  path : String
  sep : Option (Option String)
deriving Repr, DecidableEq

/-- The parsed manifest document (a YAML top-level mapping): the optional
keys are `none` when absent from the mapping. -/
structure Doc where
  segments : Option String
  recordings : Option (List (String × String))
  features : Option (List (String × String))
  classes : Option (List (String × String))
  enrollments : Option (List (String × String))
  trials : Option (List (String × String))
deriving Repr, DecidableEq

/-- Python dict lookup `d[k]`: `none` models a KeyError. -/
def dget {α : Type} : List (String × α) → String → Option α
  | [], _ => none
  | (k, v) :: rest, key => if k = key then some v else dget rest key

/-- Python dict assignment `d[k] = v`: update in place if `k` is present,
else append (insertion order preserved). -/
def dset {α : Type} : List (String × α) → String → α → List (String × α)
  | [], key, v => [(key, v)]
  | (k, w) :: rest, key, v =>
    if k = key then (k, v) :: rest else (k, w) :: dset rest key v

/-- Iterating a (possibly absent) dict's keys: the generators do
`if d is None: yield from ()` and otherwise iterate `d.keys()`. -/
def keysOf {α : Type} : Option (List (String × α)) → List String
  | none => []
  | some d => d.map Prod.fst

/-- Split a character list at every occurrence of `sep` (the accumulator
holds the current component reversed). -/
def splitChar (sep : Char) : List Char → List Char → List (List Char)
  | [], acc => [acc.reverse]
  | c :: cs, acc =>
    if c = sep then acc.reverse :: splitChar sep cs []
    else splitChar sep cs (c :: acc)

/-- Interleave `sep` between the components. -/
def joinChar (sep : Char) : List (List Char) → List Char
  | [] => []
  | [x] => x
  | x :: xs => x ++ sep :: joinChar sep xs

/-- `pathlib.PurePath(p).name`: the final path component. -/
def pname (p : String) : String :=
  String.mk ((splitChar '/' p.data []).getLastD [])

/-- `pathlib.PurePath(p).suffix`: the final component's extension including
the dot, or `""` when the last dot is absent, first, or last in the name. -/
def psuffix (p : String) : String :=
  let parts := splitChar '.' (pname p).data []
  if parts.length ≤ 1 then ""
  else
    let last := parts.getLastD []
    let pre := joinChar '.' parts.dropLast
    if pre = [] ∨ last = [] then "" else String.mk ('.' :: last)

/-- `pathlib.PurePath(p).parent`: drop the final component. -/
def pparent (p : String) : String :=
  let parts := (splitChar '/' p.data []).dropLast
  if parts = [] then "."
  else if parts = [[]] then "/"
  else String.mk (joinChar '/' parts)

/-- `pathlib` `/` join: an absolute right operand wins, a `"."` or `"/"`
left operand does not contribute a separator component. -/
def pjoin (d f : String) : String :=
  if f.data.head? = some '/' then f
  else if d = "." then f
  else if d = "/" then "/" ++ f
  else d ++ "/" ++ f

/-- The external table-kind collaborators (outside `src/`), abstracted over
the table type `T`, plus the filesystem predicate used by
`resolve_file_path`. -/
structure Env (T : Type) where
  SegmentSet_load : String → Option String → T
  RecordingSet_load : String → Option String → T
  FeatureSet_load : String → Option String → T
  ClassInfo_load : String → Option String → T
  EnrollmentMap_load : String → Option String → T
  SparseTrialKey_load : String → Option T
  TrialKey_load : String → Option T
  TrialNdx_load : String → Option T
  is_file : String → Bool

/-- The `Dataset` registry state: the fields assigned by `__init__`,
with the same names.  A group dict maps each key to an `Option` object
slot (`_X`) and, in parallel, an `Option` path slot (`_X_paths`). -/
structure Dataset (T : Type) where
  _segments : Option T
  _segments_path : Option String
  _classes : Option (List (String × Option T))
  _classes_paths : Option (List (String × Option String))
  _recordings : Option (List (String × Option T))
  _recordings_paths : Option (List (String × Option String))
  _features : Option (List (String × Option T))
  _features_paths : Option (List (String × Option String))
  _enrollments : Option (List (String × Option T))
  _enrollments_paths : Option (List (String × Option String))
  _trials : Option (List (String × Option T))
  _trials_paths : Option (List (String × Option String))
  sparse_trials : Bool
  table_sep : Option String
deriving Repr, DecidableEq

/-- A constructor-argument value: a table object or a `PathLike`
(`_parse_dict_args` distinguishes them with `isinstance`). -/
inductive ObjOrPath (T : Type) where
  | obj (t : T)
  | path (p : String)
deriving Repr, DecidableEq

/-- `Dataset._parse_dict_args`: split a dict of objects-or-paths into the
parallel object dict and path dict. -/
def parse_dict_args {T : Type} (data : Option (List (String × ObjOrPath T))) :
    Option (List (String × Option T)) × Option (List (String × Option String)) :=
  match data with
  | none => (none, none)
  | some d =>
    (some (d.map fun kv => (kv.1, match kv.2 with | .obj t => some t | .path _ => none)),
     some (d.map fun kv => (kv.1, match kv.2 with | .obj _ => none | .path p => some p)))

/-- `Dataset.__init__` (argument order of the source: segments, classes,
recordings, features, enrollments, trials, sparse_trials, table_sep). -/
def Dataset.init {T : Type} (segments : ObjOrPath T)
    (classes recordings features enrollments trials :
      Option (List (String × ObjOrPath T)))
    (sparse_trials : Bool) (table_sep : Option String) : Dataset T :=
  let seg : Option T × Option String :=
    match segments with
    | .obj s => (some s, none)
    | .path p => (none, some p)
  let c := parse_dict_args classes
  let r := parse_dict_args recordings
  let f := parse_dict_args features
  let e := parse_dict_args enrollments
  let t := parse_dict_args trials
  { _segments := seg.1, _segments_path := seg.2,
    _classes := c.1, _classes_paths := c.2,
    _recordings := r.1, _recordings_paths := r.2,
    _features := f.1, _features_paths := f.2,
    _enrollments := e.1, _enrollments_paths := e.2,
    _trials := t.1, _trials_paths := t.2,
    sparse_trials := sparse_trials, table_sep := table_sep }

/-- `Dataset.segments` (lines 94-102).  The load branch first asserts
`self._segments_path is not None`, then line 97 reads `self.segments_path`
— an attribute that is never defined on the class (only `_segments_path`
is assigned), so Python raises AttributeError before `SegmentSet.load`
can be invoked. -/
def Dataset.segments {T : Type} (env : Env T) (ds : Dataset T)
    (keep_loaded : Bool) : Except Err (T × Dataset T) × List Ev :=
  match ds._segments with
  | some s => (.ok (s, ds), [])
  | none =>
    match ds._segments_path with
    | none => (.error .assertionError, [])
    | some _ => (.error .attributeError, [])

/-- `Dataset.recordings_value` (lines 104-113).  Note the source ends with
`return self._recordings[key]`, i.e. it re-reads the (possibly updated)
slot rather than returning the local `recordings`. -/
def Dataset.recordings_value {T : Type} (env : Env T) (ds : Dataset T)
    (key : String) (keep_loaded : Bool) :
    Except Err (Option T × Dataset T) × List Ev :=
  match ds._recordings with
  | none => (.error .typeError, [])
  | some objs =>
    match dget objs key with
    | none => (.error .keyError, [])
    | some (some v) => (.ok (some v, ds), [])
    | some none =>
      match ds._recordings_paths with
      | none => (.error .typeError, [])
      | some paths =>
        match dget paths key with
        | none => (.error .keyError, [])
        | some none => (.error .assertionError, [])
        | some (some p) =>
          let recordings := env.RecordingSet_load p ds.table_sep
          let ds1 := if keep_loaded then
              { ds with _recordings := some (dset objs key (some recordings)) }
            else ds
          match ds1._recordings with
          | none => (.error .typeError, [.recording_set_load p ds.table_sep])
          | some objs1 =>
            match dget objs1 key with
            | none => (.error .keyError, [.recording_set_load p ds.table_sep])
            | some r => (.ok (r, ds1), [.recording_set_load p ds.table_sep])

/-- `Dataset.features_value` (lines 115-122). -/
def Dataset.features_value {T : Type} (env : Env T) (ds : Dataset T)
    (key : String) (keep_loaded : Bool) :
    Except Err (Option T × Dataset T) × List Ev :=
  match ds._features with
  | none => (.error .typeError, [])
  | some objs =>
    match dget objs key with
    | none => (.error .keyError, [])
    | some (some v) => (.ok (some v, ds), [])
    | some none =>
      match ds._features_paths with
      | none => (.error .typeError, [])
      | some paths =>
        match dget paths key with
        | none => (.error .keyError, [])
        | some none => (.error .assertionError, [])
        | some (some p) =>
          let features := env.FeatureSet_load p ds.table_sep
          let ds1 := if keep_loaded then
              { ds with _features := some (dset objs key (some features)) }
            else ds
          match ds1._features with
          | none => (.error .typeError, [.feature_set_load p ds.table_sep])
          | some objs1 =>
            match dget objs1 key with
            | none => (.error .keyError, [.feature_set_load p ds.table_sep])
            | some r => (.ok (r, ds1), [.feature_set_load p ds.table_sep])

/-- `Dataset.classes_value` (lines 124-131). -/
def Dataset.classes_value {T : Type} (env : Env T) (ds : Dataset T)
    (key : String) (keep_loaded : Bool) :
    Except Err (Option T × Dataset T) × List Ev :=
  match ds._classes with
  | none => (.error .typeError, [])
  | some objs =>
    match dget objs key with
    | none => (.error .keyError, [])
    | some (some v) => (.ok (some v, ds), [])
    | some none =>
      match ds._classes_paths with
      | none => (.error .typeError, [])
      | some paths =>
        match dget paths key with
        | none => (.error .keyError, [])
        | some none => (.error .assertionError, [])
        | some (some p) =>
          let classes := env.ClassInfo_load p ds.table_sep
          let ds1 := if keep_loaded then
              { ds with _classes := some (dset objs key (some classes)) }
            else ds
          match ds1._classes with
          | none => (.error .typeError, [.class_info_load p ds.table_sep])
          | some objs1 =>
            match dget objs1 key with
            | none => (.error .keyError, [.class_info_load p ds.table_sep])
            | some r => (.ok (r, ds1), [.class_info_load p ds.table_sep])

/-- `Dataset.enrollments_value` (lines 133-142). -/
def Dataset.enrollments_value {T : Type} (env : Env T) (ds : Dataset T)
    (key : String) (keep_loaded : Bool) :
    Except Err (Option T × Dataset T) × List Ev :=
  match ds._enrollments with
  | none => (.error .typeError, [])
  | some objs =>
    match dget objs key with
    | none => (.error .keyError, [])
    | some (some v) => (.ok (some v, ds), [])
    | some none =>
      match ds._enrollments_paths with
      | none => (.error .typeError, [])
      | some paths =>
        match dget paths key with
        | none => (.error .keyError, [])
        | some none => (.error .assertionError, [])
        | some (some p) =>
          let enrollments := env.EnrollmentMap_load p ds.table_sep
          let ds1 := if keep_loaded then
              { ds with _enrollments := some (dset objs key (some enrollments)) }
            else ds
          match ds1._enrollments with
          | none => (.error .typeError, [.enrollment_map_load p ds.table_sep])
          | some objs1 =>
            match dget objs1 key with
            | none => (.error .keyError, [.enrollment_map_load p ds.table_sep])
            | some r => (.ok (r, ds1), [.enrollment_map_load p ds.table_sep])

/-- `Dataset.trials_value` (lines 144-158): the bare `except:` gives the
first (key-form) parse exactly one fallback attempt with `TrialNdx.load`;
a fallback failure propagates. -/
def Dataset.trials_value {T : Type} (env : Env T) (ds : Dataset T)
    (key : String) (keep_loaded : Bool) :
    Except Err (Option T × Dataset T) × List Ev :=
  match ds._trials with
  | none => (.error .typeError, [])
  | some objs =>
    match dget objs key with
    | none => (.error .keyError, [])
    | some (some v) => (.ok (some v, ds), [])
    | some none =>
      match ds._trials_paths with
      | none => (.error .typeError, [])
      | some paths =>
        match dget paths key with
        | none => (.error .keyError, [])
        | some none => (.error .assertionError, [])
        | some (some p) =>
          let first : Option T × Ev :=
            if ds.sparse_trials then (env.SparseTrialKey_load p, .sparse_trial_key_load p)
            else (env.TrialKey_load p, .trial_key_load p)
          let step : Option T × List Ev :=
            match first with
            | (some t, e) => (some t, [e])
            | (none, e) =>
              match env.TrialNdx_load p with
              | some t => (some t, [e, .trial_ndx_load p])
              | none => (none, [e, .trial_ndx_load p])
          match step with
          | (none, evs) => (.error .loadError, evs)
          | (some trials, evs) =>
            let ds1 := if keep_loaded then
                { ds with _trials := some (dset objs key (some trials)) }
              else ds
            match ds1._trials with
            | none => (.error .typeError, evs)
            | some objs1 =>
              match dget objs1 key with
              | none => (.error .keyError, evs)
              | some r => (.ok (r, ds1), evs)

/-- `Dataset.resolve_dataset_path` (lines 195-206): note the source tests
`ext in [".yaml", "yml"]` — the second literal lacks the dot. -/
def Dataset.resolve_dataset_path (dataset_path : String) : String × String :=
  let ext := psuffix dataset_path
  if ext = ".yaml" ∨ ext = "yml" then
    (pparent dataset_path, dataset_path)
  else
    (dataset_path, pjoin dataset_path "dataset.yaml")

/-- A `PathLike` runtime value: a plain Python `str` or a
`pathlib.Path`.  Only `Path` objects have an `is_file` method. -/
inductive PathLike where
  | str (s : String)
  | path (s : String)
deriving Repr, DecidableEq

/-- `Dataset.resolve_file_path` (lines 208-213).  The first statement is
`if file_path.is_file():` — an attribute lookup on the runtime value.  A
`pathlib.Path` argument has the method (modelled by the `is_file`
environment predicate); a plain `str` argument — which is what every call
in `Dataset.load` passes, since the values come from the YAML-decoded
manifest — has no `is_file` attribute, so Python raises AttributeError
before anything else happens. -/
def Dataset.resolve_file_path (is_file : String → Bool)
    (dataset_dir : String) (file_path : PathLike) : Except Err String :=
  match file_path with
  | .str _ => .error .attributeError
  | .path p => .ok (if is_file p then p else pjoin dataset_dir p)

/-- The body of one iteration of `for k, v in self.recordings(): ...` in
`Dataset.save` (lines 246-252), folded over the group's keys.  The
generator calls `recordings_value(key, keep_loaded=True)` for each key;
`v.save(file_path, sep=table_sep)` on a `None` value would raise
AttributeError. -/
def save_recordings_loop {T : Type} (env : Env T) (table_ext dataset_dir : String)
    (update_paths : Bool) (sep : Option String) :
    List String → Dataset T → List (String × String) → List WriteEv →
    Except Err (List (String × String) × Dataset T × List WriteEv)
  | [], ds, file_names, ws => .ok (file_names, ds, ws)
  | k :: ks, ds, file_names, ws =>
    match (ds.recordings_value env k true).1 with
    | .error e => .error e
    | .ok (none, _) => .error .attributeError
    | .ok (some _, ds1) =>
      let file_name := k ++ table_ext
      let file_names1 := dset file_names k file_name
      let file_path := pjoin dataset_dir file_name
      let ws1 := ws ++ [⟨file_path, some sep⟩]
      if update_paths then
        match ds1._recordings_paths with
        | none => .error .typeError
        | some ps =>
          save_recordings_loop env table_ext dataset_dir update_paths sep ks
            { ds1 with _recordings_paths := some (dset ps k (some file_path)) }
            file_names1 ws1
      else
        save_recordings_loop env table_ext dataset_dir update_paths sep ks
          ds1 file_names1 ws1

/-- The features loop of `Dataset.save` (lines 257-264). -/
def save_features_loop {T : Type} (env : Env T) (table_ext dataset_dir : String)
    (update_paths : Bool) (sep : Option String) :
    List String → Dataset T → List (String × String) → List WriteEv →
    Except Err (List (String × String) × Dataset T × List WriteEv)
  | [], ds, file_names, ws => .ok (file_names, ds, ws)
  | k :: ks, ds, file_names, ws =>
    match (ds.features_value env k true).1 with
    | .error e => .error e
    | .ok (none, _) => .error .attributeError
    | .ok (some _, ds1) =>
      let file_name := k ++ table_ext
      let file_names1 := dset file_names k file_name
      let file_path := pjoin dataset_dir file_name
      let ws1 := ws ++ [⟨file_path, some sep⟩]
      if update_paths then
        match ds1._features_paths with
        | none => .error .typeError
        | some ps =>
          save_features_loop env table_ext dataset_dir update_paths sep ks
            { ds1 with _features_paths := some (dset ps k (some file_path)) }
            file_names1 ws1
      else
        save_features_loop env table_ext dataset_dir update_paths sep ks
          ds1 file_names1 ws1

/-- The classes loop of `Dataset.save` (lines 269-276). -/
def save_classes_loop {T : Type} (env : Env T) (table_ext dataset_dir : String)
    (update_paths : Bool) (sep : Option String) :
    List String → Dataset T → List (String × String) → List WriteEv →
    Except Err (List (String × String) × Dataset T × List WriteEv)
  | [], ds, file_names, ws => .ok (file_names, ds, ws)
  | k :: ks, ds, file_names, ws =>
    match (ds.classes_value env k true).1 with
    | .error e => .error e
    | .ok (none, _) => .error .attributeError
    | .ok (some _, ds1) =>
      let file_name := k ++ table_ext
      let file_names1 := dset file_names k file_name
      let file_path := pjoin dataset_dir file_name
      let ws1 := ws ++ [⟨file_path, some sep⟩]
      if update_paths then
        match ds1._classes_paths with
        | none => .error .typeError
        | some ps =>
          save_classes_loop env table_ext dataset_dir update_paths sep ks
            { ds1 with _classes_paths := some (dset ps k (some file_path)) }
            file_names1 ws1
      else
        save_classes_loop env table_ext dataset_dir update_paths sep ks
          ds1 file_names1 ws1

/-- The enrollments loop of `Dataset.save` (lines 281-288). -/
def save_enrollments_loop {T : Type} (env : Env T) (table_ext dataset_dir : String)
    (update_paths : Bool) (sep : Option String) :
    List String → Dataset T → List (String × String) → List WriteEv →
    Except Err (List (String × String) × Dataset T × List WriteEv)
  | [], ds, file_names, ws => .ok (file_names, ds, ws)
  | k :: ks, ds, file_names, ws =>
    match (ds.enrollments_value env k true).1 with
    | .error e => .error e
    | .ok (none, _) => .error .attributeError
    | .ok (some _, ds1) =>
      let file_name := k ++ table_ext
      let file_names1 := dset file_names k file_name
      let file_path := pjoin dataset_dir file_name
      let ws1 := ws ++ [⟨file_path, some sep⟩]
      if update_paths then
        match ds1._enrollments_paths with
        | none => .error .typeError
        | some ps =>
          save_enrollments_loop env table_ext dataset_dir update_paths sep ks
            { ds1 with _enrollments_paths := some (dset ps k (some file_path)) }
            file_names1 ws1
      else
        save_enrollments_loop env table_ext dataset_dir update_paths sep ks
          ds1 file_names1 ws1

/-- The trials loop of `Dataset.save` (lines 293-300): the write is
`v.save(file_path)`, without a separator argument. -/
def save_trials_loop {T : Type} (env : Env T) (table_ext dataset_dir : String)
    (update_paths : Bool) (sep : Option String) :
    List String → Dataset T → List (String × String) → List WriteEv →
    Except Err (List (String × String) × Dataset T × List WriteEv)
  | [], ds, file_names, ws => .ok (file_names, ds, ws)
  | k :: ks, ds, file_names, ws =>
    match (ds.trials_value env k true).1 with
    | .error e => .error e
    | .ok (none, _) => .error .attributeError
    | .ok (some _, ds1) =>
      let file_name := k ++ table_ext
      let file_names1 := dset file_names k file_name
      let file_path := pjoin dataset_dir file_name
      let ws1 := ws ++ [⟨file_path, none⟩]
      if update_paths then
        match ds1._trials_paths with
        | none => .error .typeError
        | some ps =>
          save_trials_loop env table_ext dataset_dir update_paths sep ks
            { ds1 with _trials_paths := some (dset ps k (some file_path)) }
            file_names1 ws1
      else
        save_trials_loop env table_ext dataset_dir update_paths sep ks
          ds1 file_names1 ws1

/-- Line 231 of `save`:
`table_sep = self.table_sep if table_sep is None else table_sep`. -/
def effSep (table_sep cur : Option String) : Option String :=
  match table_sep with
  | none => cur
  | some s => some s

/-- `Dataset.save` (lines 215-306).  The returned `Doc` is the mapping the
source dumps to `dataset_file` at the end; the `WriteEv` list records the
table writes in order. -/
def Dataset.save {T : Type} (env : Env T) (ds : Dataset T)
    (dataset_path : String) (update_paths : Bool) (table_sep : Option String) :
    Except Err (Doc × Dataset T × List WriteEv) :=
  let sep := effSep table_sep ds.table_sep
  let ds0 := if update_paths then { ds with table_sep := sep } else ds
  let table_ext := if sep = some "\t" then ".tsv" else ".csv"
  let dd := Dataset.resolve_dataset_path dataset_path
  let dataset_dir := dd.1
  let seg_file_name := "segments" ++ table_ext
  let seg_file_path := pjoin dataset_dir seg_file_name
  match (ds0.segments env true).1 with
  | .error e => .error e
  | .ok (_, ds1) =>
    let ws0 : List WriteEv := [⟨seg_file_path, some sep⟩]
    let ds2 := if update_paths then { ds1 with _segments_path := some seg_file_path } else ds1
    match save_recordings_loop env table_ext dataset_dir update_paths sep
        (keysOf ds2._recordings) ds2 [] ws0 with
    | .error e => .error e
    | .ok (rec_names, ds3, ws1) =>
      match save_features_loop env table_ext dataset_dir update_paths sep
          (keysOf ds3._features) ds3 [] ws1 with
      | .error e => .error e
      | .ok (feat_names, ds4, ws2) =>
        match save_classes_loop env table_ext dataset_dir update_paths sep
            (keysOf ds4._classes) ds4 [] ws2 with
        | .error e => .error e
        | .ok (class_names, ds5, ws3) =>
          match save_enrollments_loop env table_ext dataset_dir update_paths sep
              (keysOf ds5._enrollments) ds5 [] ws3 with
          | .error e => .error e
          | .ok (enroll_names, ds6, ws4) =>
            match save_trials_loop env table_ext dataset_dir update_paths sep
                (keysOf ds6._trials) ds6 [] ws4 with
            | .error e => .error e
            | .ok (trial_names, ds7, ws5) =>
              .ok ({ segments := some seg_file_name,
                     recordings := if rec_names = [] then none else some rec_names,
                     features := if feat_names = [] then none else some feat_names,
                     classes := if class_names = [] then none else some class_names,
                     enrollments := if enroll_names = [] then none else some enroll_names,
                     trials := if trial_names = [] then none else some trial_names },
                   ds7, ws5)

/-- One group pass of `Dataset.update_from_disk` (`for k, v in
self.recordings(): pass`), materializing every key. -/
def walk_recordings {T : Type} (env : Env T) :
    List String → Dataset T → Except Err (Dataset T)
  | [], ds => .ok ds
  | k :: ks, ds =>
    match (ds.recordings_value env k true).1 with
    | .error e => .error e
    | .ok (_, ds1) => walk_recordings env ks ds1

/-- The features pass of `Dataset.update_from_disk`. -/
def walk_features {T : Type} (env : Env T) :
    List String → Dataset T → Except Err (Dataset T)
  | [], ds => .ok ds
  | k :: ks, ds =>
    match (ds.features_value env k true).1 with
    | .error e => .error e
    | .ok (_, ds1) => walk_features env ks ds1

/-- The classes pass of `Dataset.update_from_disk`. -/
def walk_classes {T : Type} (env : Env T) :
    List String → Dataset T → Except Err (Dataset T)
  | [], ds => .ok ds
  | k :: ks, ds =>
    match (ds.classes_value env k true).1 with
    | .error e => .error e
    | .ok (_, ds1) => walk_classes env ks ds1

/-- The enrollments pass of `Dataset.update_from_disk`. -/
def walk_enrollments {T : Type} (env : Env T) :
    List String → Dataset T → Except Err (Dataset T)
  | [], ds => .ok ds
  | k :: ks, ds =>
    match (ds.enrollments_value env k true).1 with
    | .error e => .error e
    | .ok (_, ds1) => walk_enrollments env ks ds1

/-- The trials pass of `Dataset.update_from_disk`. -/
def walk_trials {T : Type} (env : Env T) :
    List String → Dataset T → Except Err (Dataset T)
  | [], ds => .ok ds
  | k :: ks, ds =>
    match (ds.trials_value env k true).1 with
    | .error e => .error e
    | .ok (_, ds1) => walk_trials env ks ds1

/-- `Dataset.update_from_disk` (lines 308-323). -/
def Dataset.update_from_disk {T : Type} (env : Env T) (ds : Dataset T) :
    Except Err (Dataset T) :=
  match (ds.segments env true).1 with
  | .error e => .error e
  | .ok (_, ds1) =>
    match walk_recordings env (keysOf ds1._recordings) ds1 with
    | .error e => .error e
    | .ok ds2 =>
      match walk_features env (keysOf ds2._features) ds2 with
      | .error e => .error e
      | .ok ds3 =>
        match walk_classes env (keysOf ds3._classes) ds3 with
        | .error e => .error e
        | .ok ds4 =>
          match walk_enrollments env (keysOf ds4._enrollments) ds4 with
          | .error e => .error e
          | .ok ds5 => walk_trials env (keysOf ds5._trials) ds5

/-- The file open mode used when reading or writing a document. -/
inductive Mode where
  | r
  | w
deriving Repr, DecidableEq

/-- `yaml.safe_load(f)` on a handle returned by `open(file, mode)`:
a handle opened in write mode is not readable, so reading from it raises
`io.UnsupportedOperation` (and the open itself truncates the file);
a read-mode open of a missing file raises FileNotFoundError. -/
def yaml_safe_load (fs : String → Option Doc) (mode : Mode) (file : String) :
    Except Err Doc :=
  match mode with
  | .w => .error .unsupportedOperation
  | .r =>
    match fs file with
    | none => .error .fileNotFoundError
    | some d => .ok d

/-- Python tuple unpacking `k, v = s` of a string `s`: iterating a string
yields its characters, so it succeeds exactly when `s` has two characters
and otherwise raises ValueError. -/
def unpack2 (s : String) : Except Err (String × String) :=
  match s.data with
  | [a, b] => .ok (String.mk [a], String.mk [b])
  | _ => .error .valueError

/-- One group block of `Dataset.load` (e.g. lines 350-353):
`for k, v in dataset["classes"]` iterates the KEYS of the group mapping
and tuple-unpacks each key string, then stores
`classes[k] = Dataset.resolve_file_path(dataset_dir, v)` — where `v`,
being a slice of a YAML-decoded string, is a `str`. -/
def build_group (is_file : String → Bool) (dataset_dir : String) :
    List String → List (String × String) → Except Err (List (String × String))
  | [], acc => .ok acc
  | key :: ks, acc =>
    match unpack2 key with
    | .error e => .error e
    | .ok kv =>
      match Dataset.resolve_file_path is_file dataset_dir (.str kv.2) with
      | .error e => .error e
      | .ok p => build_group is_file dataset_dir ks (dset acc kv.1 p)

/-- A group block of `Dataset.load` applied to an optional manifest entry:
an absent entry leaves the group argument `None`. -/
def build_group_opt (is_file : String → Bool) (dataset_dir : String) :
    Option (List (String × String)) →
    Except Err (Option (List (String × String)))
  | none => .ok none
  | some d =>
    match build_group is_file dataset_dir (d.map Prod.fst) [] with
    | .error e => .error e
    | .ok m => .ok (some m)

/-- Wrap a dict of path strings as constructor arguments. -/
def pathsDict {T : Type} (d : Option (List (String × String))) :
    Option (List (String × ObjOrPath T)) :=
  d.map (List.map fun kv => (kv.1, ObjOrPath.path kv.2))

/-- The body of `Dataset.load` from the parsed manifest document onward
(lines 343-387): require `segments`, resolve every recorded path against
the dataset directory, build the optional group dicts in source order
(classes, recordings, features, enrollments, trials) and construct the
registry with path references only. -/
def Dataset.load_from_doc {T : Type} (is_file : String → Bool)
    (dataset_dir : String) (doc : Doc) (sparse_trials : Bool) :
    Except Err (Dataset T) :=
  match doc.segments with
  | none => .error .assertionError
  | some segfile =>
    match Dataset.resolve_file_path is_file dataset_dir (.str segfile) with
    | .error e => .error e
    | .ok segments =>
      match build_group_opt is_file dataset_dir doc.classes with
      | .error e => .error e
      | .ok classes =>
        match build_group_opt is_file dataset_dir doc.recordings with
        | .error e => .error e
        | .ok recordings =>
          match build_group_opt is_file dataset_dir doc.features with
          | .error e => .error e
          | .ok features =>
            match build_group_opt is_file dataset_dir doc.enrollments with
            | .error e => .error e
            | .ok enrollments =>
              match build_group_opt is_file dataset_dir doc.trials with
              | .error e => .error e
              | .ok trials =>
                .ok (Dataset.init (.path segments)
                      (pathsDict classes) (pathsDict recordings)
                      (pathsDict features) (pathsDict enrollments)
                      (pathsDict trials) sparse_trials none)

/-- `Dataset.load` (lines 325-387): resolve the directory/manifest pair,
then `with open(dataset_file, "w") as f: dataset = yaml.safe_load(f)` —
the manifest is opened in WRITE mode, so the parse step always raises
before the `segments` check is reached. -/
def Dataset.load {T : Type} (env : Env T) (fs : String → Option Doc)
    (dataset_path : String) (lazy : Bool) (sparse_trials : Bool) :
    Except Err (Dataset T) :=
  let dd := Dataset.resolve_dataset_path dataset_path
  match yaml_safe_load fs Mode.w dd.2 with
  | .error e => .error e
  | .ok doc =>
    match Dataset.load_from_doc (T := T) env.is_file dd.1 doc sparse_trials with
    | .error e => .error e
    | .ok ds => if lazy then .ok ds else ds.update_from_disk env

/-- A concrete external environment over `T := Nat` for the closed
instances below: each collaborator returns a distinct tag, every parse
succeeds, and no path names an existing file. -/
def envC : Env Nat :=
  { SegmentSet_load := fun _ _ => 1
    RecordingSet_load := fun _ _ => 2
    FeatureSet_load := fun _ _ => 3
    ClassInfo_load := fun _ _ => 4
    EnrollmentMap_load := fun _ _ => 5
    SparseTrialKey_load := fun _ => some 6
    TrialKey_load := fun _ => some 7
    TrialNdx_load := fun _ => some 8
    is_file := fun _ => false }

/-- A registry with a materialized segment table and one path-reference
Slot in each of the recordings and features groups. -/
def dsC1 : Dataset Nat :=
  { _segments := some 0, _segments_path := none
    _classes := none, _classes_paths := none
    _recordings := some [("mic", none)]
    _recordings_paths := some [("mic", some "mic.csv")]
    _features := some [("mfcc", none)]
    _features_paths := some [("mfcc", some "mfcc.csv")]
    _enrollments := none, _enrollments_paths := none
    _trials := none, _trials_paths := none
    sparse_trials := false, table_sep := none }

/-- A manifest document with no `segments` key. -/
def docNoSeg : Doc :=
  { segments := none, recordings := none, features := none
    classes := none, enrollments := none, trials := none }

/-- A filesystem whose every manifest file parses to `docNoSeg`. -/
def fsC2 : String → Option Doc := fun _ => some docNoSeg

/-- A registry with one path-reference trials Slot. -/
def dsC3w : Dataset Nat :=
  { _segments := some 0, _segments_path := none
    _classes := none, _classes_paths := none
    _recordings := none, _recordings_paths := none
    _features := none, _features_paths := none
    _enrollments := none, _enrollments_paths := none
    _trials := some [("trial", none)]
    _trials_paths := some [("trial", some "trial.csv")]
    sparse_trials := false, table_sep := none }

/-- A registry whose segment Slot holds only a path reference. -/
def dsC4 : Dataset Nat :=
  { _segments := none, _segments_path := some "segments.csv"
    _classes := none, _classes_paths := none
    _recordings := none, _recordings_paths := none
    _features := none, _features_paths := none
    _enrollments := none, _enrollments_paths := none
    _trials := none, _trials_paths := none
    sparse_trials := false, table_sep := none }

/-- A registry with one path-reference Slot in each of the recordings and
enrollments groups. -/
def dsC5w : Dataset Nat :=
  { _segments := some 0, _segments_path := none
    _classes := none, _classes_paths := none
    _recordings := some [("mic", none)]
    _recordings_paths := some [("mic", some "mic.csv")]
    _features := none, _features_paths := none
    _enrollments := some [("enr", none)]
    _enrollments_paths := some [("enr", some "enr.csv")]
    _trials := none, _trials_paths := none
    sparse_trials := false, table_sep := none }

/-- A registry whose recordings group is configured but empty. -/
def dsC6cex : Dataset Nat :=
  { _segments := some 0, _segments_path := none
    _classes := none, _classes_paths := none
    _recordings := some [], _recordings_paths := some []
    _features := none, _features_paths := none
    _enrollments := none, _enrollments_paths := none
    _trials := none, _trials_paths := none
    sparse_trials := false, table_sep := none }

/-- A manifest document with a `classes` group entry under a 4-character
key. -/
def docC7 : Doc :=
  { segments := some "segs.csv", recordings := none, features := none
    classes := some [("mfcc", "mfcc.csv")], enrollments := none, trials := none }

/-- A filesystem whose every manifest file parses to `docC7`. -/
def fsC7 : String → Option Doc := fun _ => some docC7

/-- A registry with only a materialized segment table (for the save
frame-effect instances). -/
def dsW : Dataset Nat :=
  { _segments := some 0, _segments_path := none
    _classes := none, _classes_paths := none
    _recordings := none, _recordings_paths := none
    _features := none, _features_paths := none
    _enrollments := none, _enrollments_paths := none
    _trials := none, _trials_paths := none
    sparse_trials := false, table_sep := none }

/-- A registry with a materialized segment table, stale path bookkeeping
and a materialized recordings entry (for the no-update save instance). -/
def dsC9w : Dataset Nat :=
  { _segments := some 0, _segments_path := some "old/segments.csv"
    _classes := none, _classes_paths := none
    _recordings := some [("mic", some 2)]
    _recordings_paths := some [("mic", some "old/mic.csv")]
    _features := none, _features_paths := none
    _enrollments := none, _enrollments_paths := none
    _trials := none, _trials_paths := none
    sparse_trials := false, table_sep := none }

/-- A registry already carrying the tab separator, with still-unloaded
segment, recordings and trials Slots. -/
def dsC10x : Dataset Nat :=
  { _segments := none, _segments_path := some "segments.csv"
    _classes := none, _classes_paths := none
    _recordings := some [("mic", none)]
    _recordings_paths := some [("mic", some "mic.csv")]
    _features := none, _features_paths := none
    _enrollments := none, _enrollments_paths := none
    _trials := some [("trial", none)]
    _trials_paths := some [("trial", some "trial.csv")]
    sparse_trials := false, table_sep := some "\t" }

theorem dget_dset_self {α : Type} (d : List (String × α)) (k : String) (v : α) :
    dget (dset d k v) k = some v := by
  induction d with
  | nil => simp [dget, dset]
  | cons hd tl ih =>
    obtain ⟨k0, v0⟩ := hd
    by_cases hk : k0 = k
    · simp [dget, dset, hk]
    · simp [dget, dset, hk, ih]

theorem dset_ne_nil {α : Type} (d : List (String × α)) (k : String) (v : α) :
    dset d k v ≠ [] := by
  cases d with
  | nil => simp [dset]
  | cons hd tl =>
    obtain ⟨k0, v0⟩ := hd
    simp only [dset]
    split <;> simp

/-- Behaviour of `recordings_value` on a key whose Slot is a path
reference: both `keep_loaded` variants perform exactly one load;
`keep_loaded=True` stores and returns the loaded table, while
`keep_loaded=False` leaves the state unchanged and returns the slot's
still-unset content (`none`). -/
theorem recordings_value_ref {T : Type} (env : Env T) (ds : Dataset T)
    (key p : String) (objs : List (String × Option T))
    (paths : List (String × Option String))
    (h1 : ds._recordings = some objs) (h2 : dget objs key = some none)
    (h3 : ds._recordings_paths = some paths)
    (h4 : dget paths key = some (some p)) :
    ds.recordings_value env key true =
      (.ok (some (env.RecordingSet_load p ds.table_sep),
            { ds with
                _recordings := some (dset objs key (some (env.RecordingSet_load p ds.table_sep))) }),
       [.recording_set_load p ds.table_sep]) ∧
    ds.recordings_value env key false =
      (.ok (none, ds), [.recording_set_load p ds.table_sep]) := by
  constructor <;>
    simp [Dataset.recordings_value, h1, h2, h3, h4, dget_dset_self]

/-- Behaviour of `recordings_value` on a key whose Slot is materialized:
the stored table is returned with no I/O and no state change. -/
theorem recordings_value_loaded {T : Type} (env : Env T) (ds : Dataset T)
    (key : String) (v : T) (objs : List (String × Option T)) (kl : Bool)
    (h1 : ds._recordings = some objs) (h2 : dget objs key = some (some v)) :
    ds.recordings_value env key kl = (.ok (some v, ds), []) := by
  simp [Dataset.recordings_value, h1, h2]

/-- `enrollments_value` on a path-reference Slot (same shape as
`recordings_value_ref`). -/
theorem enrollments_value_ref {T : Type} (env : Env T) (ds : Dataset T)
    (key p : String) (objs : List (String × Option T))
    (paths : List (String × Option String))
    (h1 : ds._enrollments = some objs) (h2 : dget objs key = some none)
    (h3 : ds._enrollments_paths = some paths)
    (h4 : dget paths key = some (some p)) :
    ds.enrollments_value env key true =
      (.ok (some (env.EnrollmentMap_load p ds.table_sep),
            { ds with
                _enrollments := some (dset objs key (some (env.EnrollmentMap_load p ds.table_sep))) }),
       [.enrollment_map_load p ds.table_sep]) ∧
    ds.enrollments_value env key false =
      (.ok (none, ds), [.enrollment_map_load p ds.table_sep]) := by
  constructor <;>
    simp [Dataset.enrollments_value, h1, h2, h3, h4, dget_dset_self]

/-- `features_value` on a path-reference Slot (same shape as
`recordings_value_ref`). -/
theorem features_value_ref {T : Type} (env : Env T) (ds : Dataset T)
    (key p : String) (objs : List (String × Option T))
    (paths : List (String × Option String))
    (h1 : ds._features = some objs) (h2 : dget objs key = some none)
    (h3 : ds._features_paths = some paths)
    (h4 : dget paths key = some (some p)) :
    ds.features_value env key true =
      (.ok (some (env.FeatureSet_load p ds.table_sep),
            { ds with
                _features := some (dset objs key (some (env.FeatureSet_load p ds.table_sep))) }),
       [.feature_set_load p ds.table_sep]) ∧
    ds.features_value env key false =
      (.ok (none, ds), [.feature_set_load p ds.table_sep]) := by
  constructor <;>
    simp [Dataset.features_value, h1, h2, h3, h4, dget_dset_self]

/-- `classes_value` on a path-reference Slot (same shape as
`recordings_value_ref`). -/
theorem classes_value_ref {T : Type} (env : Env T) (ds : Dataset T)
    (key p : String) (objs : List (String × Option T))
    (paths : List (String × Option String))
    (h1 : ds._classes = some objs) (h2 : dget objs key = some none)
    (h3 : ds._classes_paths = some paths)
    (h4 : dget paths key = some (some p)) :
    ds.classes_value env key true =
      (.ok (some (env.ClassInfo_load p ds.table_sep),
            { ds with
                _classes := some (dset objs key (some (env.ClassInfo_load p ds.table_sep))) }),
       [.class_info_load p ds.table_sep]) ∧
    ds.classes_value env key false =
      (.ok (none, ds), [.class_info_load p ds.table_sep]) := by
  constructor <;>
    simp [Dataset.classes_value, h1, h2, h3, h4, dget_dset_self]

/-- `enrollments_value` on a materialized Slot. -/
theorem enrollments_value_loaded {T : Type} (env : Env T) (ds : Dataset T)
    (key : String) (v : T) (objs : List (String × Option T)) (kl : Bool)
    (h1 : ds._enrollments = some objs) (h2 : dget objs key = some (some v)) :
    ds.enrollments_value env key kl = (.ok (some v, ds), []) := by
  simp [Dataset.enrollments_value, h1, h2]

/-- Claim C1: for a group key whose Slot holds a path reference, the group
accessor with `keep_loaded=false` is CLAIMED to load the table and return
the freshly loaded object without mutating the Slot.  The code does load
(one read event) and does not mutate the Slot, but its final
`return self._recordings[key]` re-reads the unchanged Slot, so it returns
`None` (here `none`) instead of the freshly loaded table (tag `2` for
recordings, `3` for features): the loaded object is discarded. -/
theorem c1_keep_loaded_false_returns_none :
    dsC1.recordings_value envC "mic" false
      = (.ok (none, dsC1), [.recording_set_load "mic.csv" none])
    ∧ dsC1.features_value envC "mfcc" false
      = (.ok (none, dsC1), [.feature_set_load "mfcc.csv" none])
    ∧ envC.RecordingSet_load "mic.csv" none = 2
    ∧ envC.FeatureSet_load "mfcc.csv" none = 3 := by
  refine ⟨?_, ?_, rfl, rfl⟩ <;> rfl

/-- Claim C2: `Dataset.load` is CLAIMED to raise the missing-mandatory-field
error (`assert "segments" in dataset`) on a manifest lacking `segments`.
The source opens the manifest with `open(dataset_file, "w")` and then calls
`yaml.safe_load` on that write-mode handle, which is not readable, so every
call of `load` fails with `io.UnsupportedOperation` before the `segments`
check is reached.  The intended check is confirmed on the later part of the
function: on a parsed document lacking `segments`, the registry-building
code fails with the assertion error, and no table I/O is attempted. -/
theorem c2_load_missing_segments :
    Dataset.load (T := Nat) envC fsC2 "data" true false
      = .error .unsupportedOperation
    ∧ Dataset.load_from_doc (T := Nat) envC.is_file "data" docNoSeg false
      = .error .assertionError := by
  exact ⟨rfl, rfl⟩

/-- Claim C3: materializing a trials entry whose Slot holds a path
reference first attempts the sparse-key-form parser if `sparse_trials` is
set, else the dense key-form parser; if that first parse fails it makes
exactly one fallback attempt with the index-form parser, and a failure of
the fallback propagates with no further attempt.  The returned event list
records exactly the parse attempts performed. -/
theorem c3_trials_kind_fallback {T : Type} (env : Env T) (ds : Dataset T)
    (key p : String) (objs : List (String × Option T))
    (paths : List (String × Option String))
    (h1 : ds._trials = some objs) (h2 : dget objs key = some none)
    (h3 : ds._trials_paths = some paths)
    (h4 : dget paths key = some (some p)) :
    (∀ t, (if ds.sparse_trials then env.SparseTrialKey_load p
           else env.TrialKey_load p) = some t →
      ds.trials_value env key true =
        (.ok (some t, { ds with _trials := some (dset objs key (some t)) }),
         [if ds.sparse_trials then Ev.sparse_trial_key_load p
          else Ev.trial_key_load p]))
    ∧ (∀ t, (if ds.sparse_trials then env.SparseTrialKey_load p
             else env.TrialKey_load p) = none →
        env.TrialNdx_load p = some t →
        ds.trials_value env key true =
          (.ok (some t, { ds with _trials := some (dset objs key (some t)) }),
           [(if ds.sparse_trials then Ev.sparse_trial_key_load p
             else Ev.trial_key_load p), Ev.trial_ndx_load p]))
    ∧ ((if ds.sparse_trials then env.SparseTrialKey_load p
        else env.TrialKey_load p) = none →
        env.TrialNdx_load p = none →
        ds.trials_value env key true =
          (.error .loadError,
           [(if ds.sparse_trials then Ev.sparse_trial_key_load p
             else Ev.trial_key_load p), Ev.trial_ndx_load p])) := by
  refine ⟨?_, ?_, ?_⟩
  · intro t ht
    cases hsp : ds.sparse_trials <;> rw [hsp] at ht <;> simp at ht <;>
      simp [Dataset.trials_value, h1, h2, h3, h4, hsp, ht, dget_dset_self]
  · intro t ht hn
    cases hsp : ds.sparse_trials <;> rw [hsp] at ht <;> simp at ht <;>
      simp [Dataset.trials_value, h1, h2, h3, h4, hsp, ht, hn, dget_dset_self]
  · intro ht hn
    cases hsp : ds.sparse_trials <;> rw [hsp] at ht <;> simp at ht <;>
      simp [Dataset.trials_value, h1, h2, h3, h4, hsp, ht, hn, dget_dset_self]

/-- Witness for C3 at a concrete registry: the dense key-form parse
succeeds, so one parse attempt happens and the key-form table (tag `7`)
is stored and returned. -/
theorem c3_trials_kind_fallback_w :
    dsC3w._trials = some [("trial", none)]
    ∧ dsC3w.trials_value envC "trial" true =
        (.ok (some 7, { dsC3w with _trials := some [("trial", some 7)] }),
         [Ev.trial_key_load "trial.csv"]) := by
  constructor
  · rfl
  · have h := (c3_trials_kind_fallback envC dsC3w "trial" "trial.csv"
      [("trial", none)] [("trial", some "trial.csv")]
      rfl rfl rfl rfl).1 7 rfl
    exact h

/-- Claim C4: the segment accessor is CLAIMED to follow the dual-state
protocol (load from the stored path on a reference Slot).  In the code,
when the Slot holds only a path, line 96 asserts `self._segments_path is
not None` and line 97 then reads `self.segments_path` — an attribute that
is never defined on the class — so Python raises AttributeError and no
`SegmentSet.load` call (no read event) ever happens, for either value of
`keep_loaded`. -/
theorem c4_segments_attribute_error :
    dsC4.segments envC true = (.error .attributeError, [])
    ∧ dsC4.segments envC false = (.error .attributeError, [])
    ∧ dsC4._segments_path = some "segments.csv" := by
  exact ⟨rfl, rfl, rfl⟩

/-- Claim C5: for a group key whose Slot holds a path reference, calling
the accessor twice with `keep_loaded=true` loads on the first call only
(one read event, then none), the first call stores the loaded table, and
the second call returns the same table and the same state.  Proved for the
two accessors the claim cites: `recordings_value` and
`enrollments_value`. -/
theorem c5_idempotent_materialization {T : Type} (env : Env T)
    (ds : Dataset T) (rkey rp ekey ep : String)
    (robjs eobjs : List (String × Option T))
    (rpaths epaths : List (String × Option String))
    (hr1 : ds._recordings = some robjs) (hr2 : dget robjs rkey = some none)
    (hr3 : ds._recordings_paths = some rpaths)
    (hr4 : dget rpaths rkey = some (some rp))
    (he1 : ds._enrollments = some eobjs) (he2 : dget eobjs ekey = some none)
    (he3 : ds._enrollments_paths = some epaths)
    (he4 : dget epaths ekey = some (some ep)) :
    (ds.recordings_value env rkey true =
      (.ok (some (env.RecordingSet_load rp ds.table_sep),
            { ds with
                _recordings := some (dset robjs rkey (some (env.RecordingSet_load rp ds.table_sep))) }),
       [.recording_set_load rp ds.table_sep])
    ∧ Dataset.recordings_value env
        { ds with
            _recordings := some (dset robjs rkey (some (env.RecordingSet_load rp ds.table_sep))) }
        rkey true =
      (.ok (some (env.RecordingSet_load rp ds.table_sep),
            { ds with
                _recordings := some (dset robjs rkey (some (env.RecordingSet_load rp ds.table_sep))) }),
       []))
    ∧ (ds.enrollments_value env ekey true =
      (.ok (some (env.EnrollmentMap_load ep ds.table_sep),
            { ds with
                _enrollments := some (dset eobjs ekey (some (env.EnrollmentMap_load ep ds.table_sep))) }),
       [.enrollment_map_load ep ds.table_sep])
    ∧ Dataset.enrollments_value env
        { ds with
            _enrollments := some (dset eobjs ekey (some (env.EnrollmentMap_load ep ds.table_sep))) }
        ekey true =
      (.ok (some (env.EnrollmentMap_load ep ds.table_sep),
            { ds with
                _enrollments := some (dset eobjs ekey (some (env.EnrollmentMap_load ep ds.table_sep))) }),
       [])) := by
  refine ⟨⟨(recordings_value_ref env ds rkey rp robjs rpaths hr1 hr2 hr3 hr4).1, ?_⟩,
          (enrollments_value_ref env ds ekey ep eobjs epaths he1 he2 he3 he4).1, ?_⟩
  · exact recordings_value_loaded env _ rkey
      (env.RecordingSet_load rp ds.table_sep)
      (dset robjs rkey (some (env.RecordingSet_load rp ds.table_sep))) true
      rfl (dget_dset_self robjs rkey _)
  · exact enrollments_value_loaded env _ ekey
      (env.EnrollmentMap_load ep ds.table_sep)
      (dset eobjs ekey (some (env.EnrollmentMap_load ep ds.table_sep))) true
      rfl (dget_dset_self eobjs ekey _)

/-- Witness for C5 at a concrete registry: the first call loads tag `2`
(recordings) resp. `5` (enrollments) and stores it; the second call
returns the same table with no read event. -/
theorem c5_idempotent_materialization_w :
    (dsC5w.recordings_value envC "mic" true =
      (.ok (some 2, { dsC5w with _recordings := some [("mic", some 2)] }),
       [.recording_set_load "mic.csv" none])
    ∧ Dataset.recordings_value envC
        { dsC5w with _recordings := some [("mic", some 2)] } "mic" true =
      (.ok (some 2, { dsC5w with _recordings := some [("mic", some 2)] }), []))
    ∧ (dsC5w.enrollments_value envC "enr" true =
      (.ok (some 5, { dsC5w with _enrollments := some [("enr", some 5)] }),
       [.enrollment_map_load "enr.csv" none])
    ∧ Dataset.enrollments_value envC
        { dsC5w with _enrollments := some [("enr", some 5)] } "enr" true =
      (.ok (some 5, { dsC5w with _enrollments := some [("enr", some 5)] }), [])) := by
  exact c5_idempotent_materialization envC dsC5w "mic" "mic.csv" "enr" "enr.csv"
    [("mic", none)] [("enr", none)]
    [("mic", some "mic.csv")] [("enr", some "enr.csv")]
    rfl rfl rfl rfl rfl rfl rfl rfl

/-- Claim C7: `Dataset.load` is CLAIMED to map every key of a manifest
group entry to its resolved file path and construct the registry with
those references.  In the code `load` always fails while parsing the
manifest (write-mode open, line 340); granting a parsed document, the
very first `resolve_file_path` call (line 344, on the `segments` entry)
receives a YAML-decoded `str`, and `str` has no `is_file` attribute, so
AttributeError is raised before any group loop runs — no mapping is ever
built.  The group iteration itself is also broken: `for k, v in
dataset["classes"]` (line 352) iterates the mapping's KEYS and
tuple-unpacks each key string, so a 4-character key such as `"mfcc"`
raises ValueError at the `for` statement even in isolation. -/
theorem c7_load_group_iteration_bug :
    Dataset.load (T := Nat) envC fsC7 "data" true false
      = .error .unsupportedOperation
    ∧ Dataset.load_from_doc (T := Nat) envC.is_file "data" docC7 false
      = .error .attributeError
    ∧ build_group envC.is_file "data" ["mfcc"] [] = .error .valueError
    ∧ build_group envC.is_file "data" ["ab"] [] = .error .attributeError := by
  exact ⟨rfl, rfl, rfl, rfl⟩

/-- Claim C8: `resolve_dataset_path` is CLAIMED to recognize both `.yaml`
and `.yml` manifest extensions.  The code tests
`ext in [".yaml", "yml"]` — the second literal lacks its dot, and a
non-empty `Path.suffix` always starts with a dot, so a `.yml` path is
treated as a directory (manifest `<p>/dataset.yaml` inside it), while a
`.yaml` path behaves as claimed. -/
theorem c8_yml_extension_not_recognized :
    psuffix "data/exp.yml" = ".yml"
    ∧ Dataset.resolve_dataset_path "data/exp.yml"
        = ("data/exp.yml", "data/exp.yml/dataset.yaml")
    ∧ Dataset.resolve_dataset_path "data/exp.yaml" = ("data", "data/exp.yaml") := by
  exact ⟨rfl, rfl, rfl⟩

/-- `segments` succeeds only when the segment Slot is materialized, and
then returns the stored table and the unchanged registry. -/
theorem segments_ok {T : Type} (env : Env T) (ds : Dataset T) (kl : Bool)
    (s : T) (ds1 : Dataset T)
    (h : (ds.segments env kl).1 = .ok (s, ds1)) :
    ds1 = ds ∧ ds._segments = some s := by
  unfold Dataset.segments at h
  repeat' split at h
  all_goals simp_all

/-- `recordings_value` changes at most the `_recordings` dict: every other field of the
registry is untouched, for either `keep_loaded` value. -/
theorem recordings_value_frame {T : Type} (env : Env T) (ds : Dataset T)
    (k : String) (kl : Bool) (r : Option T) (ds1 : Dataset T)
    (h : (ds.recordings_value env k kl).1 = .ok (r, ds1)) :
    ds1._segments = ds._segments ∧
    ds1._segments_path = ds._segments_path ∧
    ds1._classes = ds._classes ∧
    ds1._classes_paths = ds._classes_paths ∧
    ds1._recordings_paths = ds._recordings_paths ∧
    ds1._features = ds._features ∧
    ds1._features_paths = ds._features_paths ∧
    ds1._enrollments = ds._enrollments ∧
    ds1._enrollments_paths = ds._enrollments_paths ∧
    ds1._trials = ds._trials ∧
    ds1._trials_paths = ds._trials_paths ∧
    ds1.sparse_trials = ds.sparse_trials ∧
    ds1.table_sep = ds.table_sep := by
  unfold Dataset.recordings_value at h
  repeat' split at h
  all_goals simp_all [dget_dset_self]
  all_goals (obtain ⟨h1, rfl⟩ := h; simp)

/-- The `recordings` loop of `save` changes at most the `_recordings` dict and (only
when `update_paths` is set) the `_recordings_paths` dict. -/
theorem save_recordings_loop_frame {T : Type} (env : Env T)
    (ext dir : String) (up : Bool) (sep : Option String)
    (ks : List String) (ds : Dataset T) (fns : List (String × String))
    (ws : List WriteEv) (fns' : List (String × String)) (ds' : Dataset T)
    (ws' : List WriteEv)
    (h : save_recordings_loop env ext dir up sep ks ds fns ws = .ok (fns', ds', ws')) :
    ds'._segments = ds._segments ∧
    ds'._segments_path = ds._segments_path ∧
    ds'._classes = ds._classes ∧
    ds'._classes_paths = ds._classes_paths ∧
    ds'._features = ds._features ∧
    ds'._features_paths = ds._features_paths ∧
    ds'._enrollments = ds._enrollments ∧
    ds'._enrollments_paths = ds._enrollments_paths ∧
    ds'._trials = ds._trials ∧
    ds'._trials_paths = ds._trials_paths ∧
    ds'.sparse_trials = ds.sparse_trials ∧
    ds'.table_sep = ds.table_sep ∧
    (up = false → ds'._recordings_paths = ds._recordings_paths) := by
  induction ks generalizing ds fns ws with
  | nil =>
    simp [save_recordings_loop] at h
    simp [h.2.1]
  | cons k ks ih =>
    rw [save_recordings_loop] at h
    split at h
    · simp at h
    · simp at h
    · rename_i v ds1 hacc
      have ha := recordings_value_frame env ds k true (some v) ds1 hacc
      split at h
      · split at h
        · simp at h
        · rename_i hup ps hps
          have hl := ih _ _ _ h
          simp_all
      · rename_i hup
        have hl := ih _ _ _ h
        simp_all

/-- The file-name dict built by the `recordings` loop of `save` is empty exactly
when it starts empty and there are no keys to iterate. -/
theorem save_recordings_loop_names {T : Type} (env : Env T)
    (ext dir : String) (up : Bool) (sep : Option String)
    (ks : List String) (ds : Dataset T) (fns : List (String × String))
    (ws : List WriteEv) (fns' : List (String × String)) (ds' : Dataset T)
    (ws' : List WriteEv)
    (h : save_recordings_loop env ext dir up sep ks ds fns ws = .ok (fns', ds', ws')) :
    (fns' = [] ↔ (fns = [] ∧ ks = [])) := by
  induction ks generalizing ds fns ws with
  | nil =>
    simp [save_recordings_loop] at h
    simp [h.1]
  | cons k ks ih =>
    rw [save_recordings_loop] at h
    split at h
    · simp at h
    · simp at h
    · split at h
      · split at h
        · simp at h
        · have := ih _ _ _ h
          simp_all [dset_ne_nil]
      · have := ih _ _ _ h
        simp_all [dset_ne_nil]

/-- Every write appended by the `recordings` loop of `save` uses the effective separator. -/
theorem save_recordings_loop_writes {T : Type} (env : Env T)
    (ext dir : String) (up : Bool) (sep : Option String)
    (ks : List String) (ds : Dataset T) (fns : List (String × String))
    (ws : List WriteEv) (fns' : List (String × String)) (ds' : Dataset T)
    (ws' : List WriteEv)
    (h : save_recordings_loop env ext dir up sep ks ds fns ws = .ok (fns', ds', ws')) :
    ∀ w ∈ ws', w ∈ ws ∨ w.sep = some sep := by
  induction ks generalizing ds fns ws with
  | nil =>
    simp [save_recordings_loop] at h
    intro w hw
    rw [h.2.2]
    exact .inl hw
  | cons k ks ih =>
    rw [save_recordings_loop] at h
    split at h
    · simp at h
    · simp at h
    · split at h
      · split at h
        · simp at h
        · intro w hw
          rcases ih _ _ _ h w hw with hin | hs
          · rcases List.mem_append.mp hin with h1 | h2
            · exact .inl h1
            · simp at h2
              subst h2
              exact .inr rfl
          · exact .inr hs
      · intro w hw
        rcases ih _ _ _ h w hw with hin | hs
        · rcases List.mem_append.mp hin with h1 | h2
          · exact .inl h1
          · simp at h2
            subst h2
            exact .inr rfl
        · exact .inr hs

/-- `features_value` changes at most the `_features` dict: every other field of the
registry is untouched, for either `keep_loaded` value. -/
theorem features_value_frame {T : Type} (env : Env T) (ds : Dataset T)
    (k : String) (kl : Bool) (r : Option T) (ds1 : Dataset T)
    (h : (ds.features_value env k kl).1 = .ok (r, ds1)) :
    ds1._segments = ds._segments ∧
    ds1._segments_path = ds._segments_path ∧
    ds1._classes = ds._classes ∧
    ds1._classes_paths = ds._classes_paths ∧
    ds1._recordings = ds._recordings ∧
    ds1._recordings_paths = ds._recordings_paths ∧
    ds1._features_paths = ds._features_paths ∧
    ds1._enrollments = ds._enrollments ∧
    ds1._enrollments_paths = ds._enrollments_paths ∧
    ds1._trials = ds._trials ∧
    ds1._trials_paths = ds._trials_paths ∧
    ds1.sparse_trials = ds.sparse_trials ∧
    ds1.table_sep = ds.table_sep := by
  unfold Dataset.features_value at h
  repeat' split at h
  all_goals simp_all [dget_dset_self]
  all_goals (obtain ⟨h1, rfl⟩ := h; simp)

/-- The `features` loop of `save` changes at most the `_features` dict and (only
when `update_paths` is set) the `_features_paths` dict. -/
theorem save_features_loop_frame {T : Type} (env : Env T)
    (ext dir : String) (up : Bool) (sep : Option String)
    (ks : List String) (ds : Dataset T) (fns : List (String × String))
    (ws : List WriteEv) (fns' : List (String × String)) (ds' : Dataset T)
    (ws' : List WriteEv)
    (h : save_features_loop env ext dir up sep ks ds fns ws = .ok (fns', ds', ws')) :
    ds'._segments = ds._segments ∧
    ds'._segments_path = ds._segments_path ∧
    ds'._classes = ds._classes ∧
    ds'._classes_paths = ds._classes_paths ∧
    ds'._recordings = ds._recordings ∧
    ds'._recordings_paths = ds._recordings_paths ∧
    ds'._enrollments = ds._enrollments ∧
    ds'._enrollments_paths = ds._enrollments_paths ∧
    ds'._trials = ds._trials ∧
    ds'._trials_paths = ds._trials_paths ∧
    ds'.sparse_trials = ds.sparse_trials ∧
    ds'.table_sep = ds.table_sep ∧
    (up = false → ds'._features_paths = ds._features_paths) := by
  induction ks generalizing ds fns ws with
  | nil =>
    simp [save_features_loop] at h
    simp [h.2.1]
  | cons k ks ih =>
    rw [save_features_loop] at h
    split at h
    · simp at h
    · simp at h
    · rename_i v ds1 hacc
      have ha := features_value_frame env ds k true (some v) ds1 hacc
      split at h
      · split at h
        · simp at h
        · rename_i hup ps hps
          have hl := ih _ _ _ h
          simp_all
      · rename_i hup
        have hl := ih _ _ _ h
        simp_all

/-- The file-name dict built by the `features` loop of `save` is empty exactly
when it starts empty and there are no keys to iterate. -/
theorem save_features_loop_names {T : Type} (env : Env T)
    (ext dir : String) (up : Bool) (sep : Option String)
    (ks : List String) (ds : Dataset T) (fns : List (String × String))
    (ws : List WriteEv) (fns' : List (String × String)) (ds' : Dataset T)
    (ws' : List WriteEv)
    (h : save_features_loop env ext dir up sep ks ds fns ws = .ok (fns', ds', ws')) :
    (fns' = [] ↔ (fns = [] ∧ ks = [])) := by
  induction ks generalizing ds fns ws with
  | nil =>
    simp [save_features_loop] at h
    simp [h.1]
  | cons k ks ih =>
    rw [save_features_loop] at h
    split at h
    · simp at h
    · simp at h
    · split at h
      · split at h
        · simp at h
        · have := ih _ _ _ h
          simp_all [dset_ne_nil]
      · have := ih _ _ _ h
        simp_all [dset_ne_nil]

/-- Every write appended by the `features` loop of `save` uses the effective separator. -/
theorem save_features_loop_writes {T : Type} (env : Env T)
    (ext dir : String) (up : Bool) (sep : Option String)
    (ks : List String) (ds : Dataset T) (fns : List (String × String))
    (ws : List WriteEv) (fns' : List (String × String)) (ds' : Dataset T)
    (ws' : List WriteEv)
    (h : save_features_loop env ext dir up sep ks ds fns ws = .ok (fns', ds', ws')) :
    ∀ w ∈ ws', w ∈ ws ∨ w.sep = some sep := by
  induction ks generalizing ds fns ws with
  | nil =>
    simp [save_features_loop] at h
    intro w hw
    rw [h.2.2]
    exact .inl hw
  | cons k ks ih =>
    rw [save_features_loop] at h
    split at h
    · simp at h
    · simp at h
    · split at h
      · split at h
        · simp at h
        · intro w hw
          rcases ih _ _ _ h w hw with hin | hs
          · rcases List.mem_append.mp hin with h1 | h2
            · exact .inl h1
            · simp at h2
              subst h2
              exact .inr rfl
          · exact .inr hs
      · intro w hw
        rcases ih _ _ _ h w hw with hin | hs
        · rcases List.mem_append.mp hin with h1 | h2
          · exact .inl h1
          · simp at h2
            subst h2
            exact .inr rfl
        · exact .inr hs

/-- `classes_value` changes at most the `_classes` dict: every other field of the
registry is untouched, for either `keep_loaded` value. -/
theorem classes_value_frame {T : Type} (env : Env T) (ds : Dataset T)
    (k : String) (kl : Bool) (r : Option T) (ds1 : Dataset T)
    (h : (ds.classes_value env k kl).1 = .ok (r, ds1)) :
    ds1._segments = ds._segments ∧
    ds1._segments_path = ds._segments_path ∧
    ds1._classes_paths = ds._classes_paths ∧
    ds1._recordings = ds._recordings ∧
    ds1._recordings_paths = ds._recordings_paths ∧
    ds1._features = ds._features ∧
    ds1._features_paths = ds._features_paths ∧
    ds1._enrollments = ds._enrollments ∧
    ds1._enrollments_paths = ds._enrollments_paths ∧
    ds1._trials = ds._trials ∧
    ds1._trials_paths = ds._trials_paths ∧
    ds1.sparse_trials = ds.sparse_trials ∧
    ds1.table_sep = ds.table_sep := by
  unfold Dataset.classes_value at h
  repeat' split at h
  all_goals simp_all [dget_dset_self]
  all_goals (obtain ⟨h1, rfl⟩ := h; simp)

/-- The `classes` loop of `save` changes at most the `_classes` dict and (only
when `update_paths` is set) the `_classes_paths` dict. -/
theorem save_classes_loop_frame {T : Type} (env : Env T)
    (ext dir : String) (up : Bool) (sep : Option String)
    (ks : List String) (ds : Dataset T) (fns : List (String × String))
    (ws : List WriteEv) (fns' : List (String × String)) (ds' : Dataset T)
    (ws' : List WriteEv)
    (h : save_classes_loop env ext dir up sep ks ds fns ws = .ok (fns', ds', ws')) :
    ds'._segments = ds._segments ∧
    ds'._segments_path = ds._segments_path ∧
    ds'._recordings = ds._recordings ∧
    ds'._recordings_paths = ds._recordings_paths ∧
    ds'._features = ds._features ∧
    ds'._features_paths = ds._features_paths ∧
    ds'._enrollments = ds._enrollments ∧
    ds'._enrollments_paths = ds._enrollments_paths ∧
    ds'._trials = ds._trials ∧
    ds'._trials_paths = ds._trials_paths ∧
    ds'.sparse_trials = ds.sparse_trials ∧
    ds'.table_sep = ds.table_sep ∧
    (up = false → ds'._classes_paths = ds._classes_paths) := by
  induction ks generalizing ds fns ws with
  | nil =>
    simp [save_classes_loop] at h
    simp [h.2.1]
  | cons k ks ih =>
    rw [save_classes_loop] at h
    split at h
    · simp at h
    · simp at h
    · rename_i v ds1 hacc
      have ha := classes_value_frame env ds k true (some v) ds1 hacc
      split at h
      · split at h
        · simp at h
        · rename_i hup ps hps
          have hl := ih _ _ _ h
          simp_all
      · rename_i hup
        have hl := ih _ _ _ h
        simp_all

/-- The file-name dict built by the `classes` loop of `save` is empty exactly
when it starts empty and there are no keys to iterate. -/
theorem save_classes_loop_names {T : Type} (env : Env T)
    (ext dir : String) (up : Bool) (sep : Option String)
    (ks : List String) (ds : Dataset T) (fns : List (String × String))
    (ws : List WriteEv) (fns' : List (String × String)) (ds' : Dataset T)
    (ws' : List WriteEv)
    (h : save_classes_loop env ext dir up sep ks ds fns ws = .ok (fns', ds', ws')) :
    (fns' = [] ↔ (fns = [] ∧ ks = [])) := by
  induction ks generalizing ds fns ws with
  | nil =>
    simp [save_classes_loop] at h
    simp [h.1]
  | cons k ks ih =>
    rw [save_classes_loop] at h
    split at h
    · simp at h
    · simp at h
    · split at h
      · split at h
        · simp at h
        · have := ih _ _ _ h
          simp_all [dset_ne_nil]
      · have := ih _ _ _ h
        simp_all [dset_ne_nil]

/-- Every write appended by the `classes` loop of `save` uses the effective separator. -/
theorem save_classes_loop_writes {T : Type} (env : Env T)
    (ext dir : String) (up : Bool) (sep : Option String)
    (ks : List String) (ds : Dataset T) (fns : List (String × String))
    (ws : List WriteEv) (fns' : List (String × String)) (ds' : Dataset T)
    (ws' : List WriteEv)
    (h : save_classes_loop env ext dir up sep ks ds fns ws = .ok (fns', ds', ws')) :
    ∀ w ∈ ws', w ∈ ws ∨ w.sep = some sep := by
  induction ks generalizing ds fns ws with
  | nil =>
    simp [save_classes_loop] at h
    intro w hw
    rw [h.2.2]
    exact .inl hw
  | cons k ks ih =>
    rw [save_classes_loop] at h
    split at h
    · simp at h
    · simp at h
    · split at h
      · split at h
        · simp at h
        · intro w hw
          rcases ih _ _ _ h w hw with hin | hs
          · rcases List.mem_append.mp hin with h1 | h2
            · exact .inl h1
            · simp at h2
              subst h2
              exact .inr rfl
          · exact .inr hs
      · intro w hw
        rcases ih _ _ _ h w hw with hin | hs
        · rcases List.mem_append.mp hin with h1 | h2
          · exact .inl h1
          · simp at h2
            subst h2
            exact .inr rfl
        · exact .inr hs

/-- `enrollments_value` changes at most the `_enrollments` dict: every other field of the
registry is untouched, for either `keep_loaded` value. -/
theorem enrollments_value_frame {T : Type} (env : Env T) (ds : Dataset T)
    (k : String) (kl : Bool) (r : Option T) (ds1 : Dataset T)
    (h : (ds.enrollments_value env k kl).1 = .ok (r, ds1)) :
    ds1._segments = ds._segments ∧
    ds1._segments_path = ds._segments_path ∧
    ds1._classes = ds._classes ∧
    ds1._classes_paths = ds._classes_paths ∧
    ds1._recordings = ds._recordings ∧
    ds1._recordings_paths = ds._recordings_paths ∧
    ds1._features = ds._features ∧
    ds1._features_paths = ds._features_paths ∧
    ds1._enrollments_paths = ds._enrollments_paths ∧
    ds1._trials = ds._trials ∧
    ds1._trials_paths = ds._trials_paths ∧
    ds1.sparse_trials = ds.sparse_trials ∧
    ds1.table_sep = ds.table_sep := by
  unfold Dataset.enrollments_value at h
  repeat' split at h
  all_goals simp_all [dget_dset_self]
  all_goals (obtain ⟨h1, rfl⟩ := h; simp)

/-- The `enrollments` loop of `save` changes at most the `_enrollments` dict and (only
when `update_paths` is set) the `_enrollments_paths` dict. -/
theorem save_enrollments_loop_frame {T : Type} (env : Env T)
    (ext dir : String) (up : Bool) (sep : Option String)
    (ks : List String) (ds : Dataset T) (fns : List (String × String))
    (ws : List WriteEv) (fns' : List (String × String)) (ds' : Dataset T)
    (ws' : List WriteEv)
    (h : save_enrollments_loop env ext dir up sep ks ds fns ws = .ok (fns', ds', ws')) :
    ds'._segments = ds._segments ∧
    ds'._segments_path = ds._segments_path ∧
    ds'._classes = ds._classes ∧
    ds'._classes_paths = ds._classes_paths ∧
    ds'._recordings = ds._recordings ∧
    ds'._recordings_paths = ds._recordings_paths ∧
    ds'._features = ds._features ∧
    ds'._features_paths = ds._features_paths ∧
    ds'._trials = ds._trials ∧
    ds'._trials_paths = ds._trials_paths ∧
    ds'.sparse_trials = ds.sparse_trials ∧
    ds'.table_sep = ds.table_sep ∧
    (up = false → ds'._enrollments_paths = ds._enrollments_paths) := by
  induction ks generalizing ds fns ws with
  | nil =>
    simp [save_enrollments_loop] at h
    simp [h.2.1]
  | cons k ks ih =>
    rw [save_enrollments_loop] at h
    split at h
    · simp at h
    · simp at h
    · rename_i v ds1 hacc
      have ha := enrollments_value_frame env ds k true (some v) ds1 hacc
      split at h
      · split at h
        · simp at h
        · rename_i hup ps hps
          have hl := ih _ _ _ h
          simp_all
      · rename_i hup
        have hl := ih _ _ _ h
        simp_all

/-- The file-name dict built by the `enrollments` loop of `save` is empty exactly
when it starts empty and there are no keys to iterate. -/
theorem save_enrollments_loop_names {T : Type} (env : Env T)
    (ext dir : String) (up : Bool) (sep : Option String)
    (ks : List String) (ds : Dataset T) (fns : List (String × String))
    (ws : List WriteEv) (fns' : List (String × String)) (ds' : Dataset T)
    (ws' : List WriteEv)
    (h : save_enrollments_loop env ext dir up sep ks ds fns ws = .ok (fns', ds', ws')) :
    (fns' = [] ↔ (fns = [] ∧ ks = [])) := by
  induction ks generalizing ds fns ws with
  | nil =>
    simp [save_enrollments_loop] at h
    simp [h.1]
  | cons k ks ih =>
    rw [save_enrollments_loop] at h
    split at h
    · simp at h
    · simp at h
    · split at h
      · split at h
        · simp at h
        · have := ih _ _ _ h
          simp_all [dset_ne_nil]
      · have := ih _ _ _ h
        simp_all [dset_ne_nil]

/-- Every write appended by the `enrollments` loop of `save` uses the effective separator. -/
theorem save_enrollments_loop_writes {T : Type} (env : Env T)
    (ext dir : String) (up : Bool) (sep : Option String)
    (ks : List String) (ds : Dataset T) (fns : List (String × String))
    (ws : List WriteEv) (fns' : List (String × String)) (ds' : Dataset T)
    (ws' : List WriteEv)
    (h : save_enrollments_loop env ext dir up sep ks ds fns ws = .ok (fns', ds', ws')) :
    ∀ w ∈ ws', w ∈ ws ∨ w.sep = some sep := by
  induction ks generalizing ds fns ws with
  | nil =>
    simp [save_enrollments_loop] at h
    intro w hw
    rw [h.2.2]
    exact .inl hw
  | cons k ks ih =>
    rw [save_enrollments_loop] at h
    split at h
    · simp at h
    · simp at h
    · split at h
      · split at h
        · simp at h
        · intro w hw
          rcases ih _ _ _ h w hw with hin | hs
          · rcases List.mem_append.mp hin with h1 | h2
            · exact .inl h1
            · simp at h2
              subst h2
              exact .inr rfl
          · exact .inr hs
      · intro w hw
        rcases ih _ _ _ h w hw with hin | hs
        · rcases List.mem_append.mp hin with h1 | h2
          · exact .inl h1
          · simp at h2
            subst h2
            exact .inr rfl
        · exact .inr hs

/-- `trials_value` changes at most the `_trials` dict: every other field of the
registry is untouched, for either `keep_loaded` value. -/
theorem trials_value_frame {T : Type} (env : Env T) (ds : Dataset T)
    (k : String) (kl : Bool) (r : Option T) (ds1 : Dataset T)
    (h : (ds.trials_value env k kl).1 = .ok (r, ds1)) :
    ds1._segments = ds._segments ∧
    ds1._segments_path = ds._segments_path ∧
    ds1._classes = ds._classes ∧
    ds1._classes_paths = ds._classes_paths ∧
    ds1._recordings = ds._recordings ∧
    ds1._recordings_paths = ds._recordings_paths ∧
    ds1._features = ds._features ∧
    ds1._features_paths = ds._features_paths ∧
    ds1._enrollments = ds._enrollments ∧
    ds1._enrollments_paths = ds._enrollments_paths ∧
    ds1._trials_paths = ds._trials_paths ∧
    ds1.sparse_trials = ds.sparse_trials ∧
    ds1.table_sep = ds.table_sep := by
  unfold Dataset.trials_value at h
  cases hsp : ds.sparse_trials <;> rw [hsp] at h <;>
    simp only [Bool.false_eq_true, if_true, if_false] at h <;>
    repeat' split at h
  all_goals simp_all [dget_dset_self]
  all_goals (obtain ⟨h1, rfl⟩ := h; simp)

/-- The `trials` loop of `save` changes at most the `_trials` dict and (only
when `update_paths` is set) the `_trials_paths` dict. -/
theorem save_trials_loop_frame {T : Type} (env : Env T)
    (ext dir : String) (up : Bool) (sep : Option String)
    (ks : List String) (ds : Dataset T) (fns : List (String × String))
    (ws : List WriteEv) (fns' : List (String × String)) (ds' : Dataset T)
    (ws' : List WriteEv)
    (h : save_trials_loop env ext dir up sep ks ds fns ws = .ok (fns', ds', ws')) :
    ds'._segments = ds._segments ∧
    ds'._segments_path = ds._segments_path ∧
    ds'._classes = ds._classes ∧
    ds'._classes_paths = ds._classes_paths ∧
    ds'._recordings = ds._recordings ∧
    ds'._recordings_paths = ds._recordings_paths ∧
    ds'._features = ds._features ∧
    ds'._features_paths = ds._features_paths ∧
    ds'._enrollments = ds._enrollments ∧
    ds'._enrollments_paths = ds._enrollments_paths ∧
    ds'.sparse_trials = ds.sparse_trials ∧
    ds'.table_sep = ds.table_sep ∧
    (up = false → ds'._trials_paths = ds._trials_paths) := by
  induction ks generalizing ds fns ws with
  | nil =>
    simp [save_trials_loop] at h
    simp [h.2.1]
  | cons k ks ih =>
    rw [save_trials_loop] at h
    split at h
    · simp at h
    · simp at h
    · rename_i v ds1 hacc
      have ha := trials_value_frame env ds k true (some v) ds1 hacc
      split at h
      · split at h
        · simp at h
        · rename_i hup ps hps
          have hl := ih _ _ _ h
          simp_all
      · rename_i hup
        have hl := ih _ _ _ h
        simp_all

/-- The file-name dict built by the `trials` loop of `save` is empty exactly
when it starts empty and there are no keys to iterate. -/
theorem save_trials_loop_names {T : Type} (env : Env T)
    (ext dir : String) (up : Bool) (sep : Option String)
    (ks : List String) (ds : Dataset T) (fns : List (String × String))
    (ws : List WriteEv) (fns' : List (String × String)) (ds' : Dataset T)
    (ws' : List WriteEv)
    (h : save_trials_loop env ext dir up sep ks ds fns ws = .ok (fns', ds', ws')) :
    (fns' = [] ↔ (fns = [] ∧ ks = [])) := by
  induction ks generalizing ds fns ws with
  | nil =>
    simp [save_trials_loop] at h
    simp [h.1]
  | cons k ks ih =>
    rw [save_trials_loop] at h
    split at h
    · simp at h
    · simp at h
    · split at h
      · split at h
        · simp at h
        · have := ih _ _ _ h
          simp_all [dset_ne_nil]
      · have := ih _ _ _ h
        simp_all [dset_ne_nil]

/-- Every write appended by the `trials` loop of `save` uses no separator. -/
theorem save_trials_loop_writes {T : Type} (env : Env T)
    (ext dir : String) (up : Bool) (sep : Option String)
    (ks : List String) (ds : Dataset T) (fns : List (String × String))
    (ws : List WriteEv) (fns' : List (String × String)) (ds' : Dataset T)
    (ws' : List WriteEv)
    (h : save_trials_loop env ext dir up sep ks ds fns ws = .ok (fns', ds', ws')) :
    ∀ w ∈ ws', w ∈ ws ∨ w.sep = none := by
  induction ks generalizing ds fns ws with
  | nil =>
    simp [save_trials_loop] at h
    intro w hw
    rw [h.2.2]
    exact .inl hw
  | cons k ks ih =>
    rw [save_trials_loop] at h
    split at h
    · simp at h
    · simp at h
    · split at h
      · split at h
        · simp at h
        · intro w hw
          rcases ih _ _ _ h w hw with hin | hs
          · rcases List.mem_append.mp hin with h1 | h2
            · exact .inl h1
            · simp at h2
              subst h2
              exact .inr rfl
          · exact .inr hs
      · intro w hw
        rcases ih _ _ _ h w hw with hin | hs
        · rcases List.mem_append.mp hin with h1 | h2
          · exact .inl h1
          · simp at h2
            subst h2
            exact .inr rfl
        · exact .inr hs

theorem keysOf_eq_nil {α : Type} (d : Option (List (String × α))) :
    keysOf d = [] ↔ (d = none ∨ d = some []) := by
  cases d <;> simp [keysOf]

theorem ite_names_none (xs : List (String × String)) :
    (if xs = [] then none else some xs) = (none : Option (List (String × String))) ↔ xs = [] := by
  split <;> simp_all

/-- `save` stores the effective separator into `table_sep` exactly when
`update_paths` is set; otherwise `table_sep` is untouched. -/
theorem save_table_sep {T : Type} (env : Env T) (ds : Dataset T)
    (path : String) (up : Bool) (tsep : Option String)
    (doc : Doc) (ds' : Dataset T) (ws : List WriteEv)
    (h : ds.save env path up tsep = .ok (doc, ds', ws)) :
    ds'.table_sep = if up then effSep tsep ds.table_sep else ds.table_sep := by
  cases up <;>
  · unfold Dataset.save at h
    simp only [Bool.false_eq_true, if_false, if_true, reduceIte] at h
    split at h
    · simp at h
    · rename_i s ds1 hseg
      obtain ⟨rfl, hs⟩ := segments_ok env _ true s ds1 hseg
      split at h
      · simp at h
      · rename_i rec_names ds3 ws1 hrec
        have f3 := save_recordings_loop_frame env _ _ _ _ _ _ _ _ _ _ _ hrec
        split at h
        · simp at h
        · rename_i feat_names ds4 ws2 hfeat
          have f4 := save_features_loop_frame env _ _ _ _ _ _ _ _ _ _ _ hfeat
          split at h
          · simp at h
          · rename_i class_names ds5 ws3 hcl
            have f5 := save_classes_loop_frame env _ _ _ _ _ _ _ _ _ _ _ hcl
            split at h
            · simp at h
            · rename_i enroll_names ds6 ws4 hen
              have f6 := save_enrollments_loop_frame env _ _ _ _ _ _ _ _ _ _ _ hen
              split at h
              · simp at h
              · rename_i trial_names ds7 ws5 htr
                have f7 := save_trials_loop_frame env _ _ _ _ _ _ _ _ _ _ _ htr
                simp only [Except.ok.injEq, Prod.mk.injEq] at h
                obtain ⟨hdoc, hds, hws⟩ := h
                subst hds
                simp_all

/-- Every table write performed by `save` either passes the effective
separator (`v.save(file_path, sep=table_sep)`) or, for the trials group,
no separator at all. -/
theorem save_writes_sep {T : Type} (env : Env T) (ds : Dataset T)
    (path : String) (up : Bool) (tsep : Option String)
    (doc : Doc) (ds' : Dataset T) (ws : List WriteEv)
    (h : ds.save env path up tsep = .ok (doc, ds', ws)) :
    ∀ w ∈ ws, w.sep = some (effSep tsep ds.table_sep) ∨ w.sep = none := by
  cases up <;>
  · unfold Dataset.save at h
    simp only [Bool.false_eq_true, if_false, if_true, reduceIte] at h
    split at h
    · simp at h
    · rename_i s ds1 hseg
      obtain ⟨rfl, hs⟩ := segments_ok env _ true s ds1 hseg
      split at h
      · simp at h
      · rename_i rec_names ds3 ws1 hrec
        split at h
        · simp at h
        · rename_i feat_names ds4 ws2 hfeat
          split at h
          · simp at h
          · rename_i class_names ds5 ws3 hcl
            split at h
            · simp at h
            · rename_i enroll_names ds6 ws4 hen
              split at h
              · simp at h
              · rename_i trial_names ds7 ws5 htr
                simp only [Except.ok.injEq, Prod.mk.injEq] at h
                obtain ⟨hdoc, hds, hws⟩ := h
                subst hws
                intro w hw
                rcases save_trials_loop_writes env _ _ _ _ _ _ _ _ _ _ _ htr w hw with h5 | h5
                · rcases save_enrollments_loop_writes env _ _ _ _ _ _ _ _ _ _ _ hen w h5 with h4 | h4
                  · rcases save_classes_loop_writes env _ _ _ _ _ _ _ _ _ _ _ hcl w h4 with h3 | h3
                    · rcases save_features_loop_writes env _ _ _ _ _ _ _ _ _ _ _ hfeat w h3 with h2w | h2w
                      · rcases save_recordings_loop_writes env _ _ _ _ _ _ _ _ _ _ _ hrec w h2w with h1w | h1w
                        · simp at h1w
                          simp [h1w]
                        · exact Or.inl h1w
                      · exact Or.inl h2w
                    · exact Or.inl h3
                  · exact Or.inl h4
                · exact Or.inr h5

/-- Claim C6 counterexample: the recordings group of `dsC6cex` is
configured but empty (`some []`), and `save` omits it from the manifest
(`recordings := none`), contradicting the claim that only
never-configured groups are omitted. -/
theorem c6_configured_empty_group_omitted_cex :
    dsC6cex._recordings = some []
    ∧ dsC6cex.save envC "data" false none =
        .ok ({ segments := some "segments.csv", recordings := none,
               features := none, classes := none, enrollments := none,
               trials := none },
             dsC6cex, [{ path := "data/segments.csv", sep := some none }]) := by
  exact ⟨rfl, rfl⟩

/-- Claim C6 (amended): during `save` a group is omitted from the written
manifest iff it contributes zero written files, i.e. iff it was never
configured OR it is configured but empty — the source guards each group
entry with `if file_names:`, and an empty dict is falsy. -/
theorem c6_group_omitted_iff_no_keys {T : Type} (env : Env T)
    (ds : Dataset T) (path : String) (up : Bool) (tsep : Option String)
    (doc : Doc) (ds' : Dataset T) (ws : List WriteEv)
    (h : ds.save env path up tsep = .ok (doc, ds', ws)) :
    (doc.recordings = none ↔ (ds._recordings = none ∨ ds._recordings = some [])) ∧
    (doc.features = none ↔ (ds._features = none ∨ ds._features = some [])) ∧
    (doc.classes = none ↔ (ds._classes = none ∨ ds._classes = some [])) ∧
    (doc.enrollments = none ↔ (ds._enrollments = none ∨ ds._enrollments = some [])) ∧
    (doc.trials = none ↔ (ds._trials = none ∨ ds._trials = some [])) := by
  cases up <;>
  · unfold Dataset.save at h
    simp only [Bool.false_eq_true, if_false, if_true, reduceIte] at h
    split at h
    · simp at h
    · rename_i s ds1 hseg
      obtain ⟨rfl, hs⟩ := segments_ok env _ true s ds1 hseg
      split at h
      · simp at h
      · rename_i rec_names ds3 ws1 hrec
        have f3 := save_recordings_loop_frame env _ _ _ _ _ _ _ _ _ _ _ hrec
        have n3 := save_recordings_loop_names env _ _ _ _ _ _ _ _ _ _ _ hrec
        split at h
        · simp at h
        · rename_i feat_names ds4 ws2 hfeat
          have f4 := save_features_loop_frame env _ _ _ _ _ _ _ _ _ _ _ hfeat
          have n4 := save_features_loop_names env _ _ _ _ _ _ _ _ _ _ _ hfeat
          split at h
          · simp at h
          · rename_i class_names ds5 ws3 hcl
            have f5 := save_classes_loop_frame env _ _ _ _ _ _ _ _ _ _ _ hcl
            have n5 := save_classes_loop_names env _ _ _ _ _ _ _ _ _ _ _ hcl
            split at h
            · simp at h
            · rename_i enroll_names ds6 ws4 hen
              have f6 := save_enrollments_loop_frame env _ _ _ _ _ _ _ _ _ _ _ hen
              have n6 := save_enrollments_loop_names env _ _ _ _ _ _ _ _ _ _ _ hen
              split at h
              · simp at h
              · rename_i trial_names ds7 ws5 htr
                have f7 := save_trials_loop_frame env _ _ _ _ _ _ _ _ _ _ _ htr
                have n7 := save_trials_loop_names env _ _ _ _ _ _ _ _ _ _ _ htr
                simp only [Except.ok.injEq, Prod.mk.injEq] at h
                obtain ⟨hdoc, hds, hws⟩ := h
                subst hdoc
                simp_all [ite_names_none, keysOf_eq_nil]
                refine ⟨?_, ?_, ?_, ?_, ?_⟩ <;>
                  exact or_iff_not_imp_left.symm

/-- Witness for the amended C6 at `dsC6cex`: the configured-but-empty
recordings group is omitted from the produced manifest. -/
theorem c6_group_omitted_iff_no_keys_w :
    (({ segments := some "segments.csv", recordings := none,
        features := none, classes := none, enrollments := none,
        trials := none } : Doc).recordings = none
      ↔ (dsC6cex._recordings = none ∨ dsC6cex._recordings = some [])) := by
  have h := c6_group_omitted_iff_no_keys envC dsC6cex "data" false none
    { segments := some "segments.csv", recordings := none, features := none,
      classes := none, enrollments := none, trials := none }
    dsC6cex [{ path := "data/segments.csv", sep := some none }] rfl
  exact h.1

/-- Claim C9: `save` with `update_paths=false` leaves the registry's path
bookkeeping (the segment path and every group's key-to-path dict) and the
stored separator unchanged, even though the table files and the manifest
are produced. -/
theorem c9_save_no_update_preserves_paths {T : Type} (env : Env T)
    (ds : Dataset T) (path : String) (tsep : Option String)
    (doc : Doc) (ds' : Dataset T) (ws : List WriteEv)
    (h : ds.save env path false tsep = .ok (doc, ds', ws)) :
    ds'._segments_path = ds._segments_path ∧
    ds'._recordings_paths = ds._recordings_paths ∧
    ds'._features_paths = ds._features_paths ∧
    ds'._classes_paths = ds._classes_paths ∧
    ds'._enrollments_paths = ds._enrollments_paths ∧
    ds'._trials_paths = ds._trials_paths ∧
    ds'.table_sep = ds.table_sep := by
  unfold Dataset.save at h
  simp only [Bool.false_eq_true, if_false, reduceIte] at h
  split at h
  · simp at h
  · rename_i s ds1 hseg
    obtain ⟨rfl, hs⟩ := segments_ok env _ true s ds1 hseg
    split at h
    · simp at h
    · rename_i rec_names ds3 ws1 hrec
      have f3 := save_recordings_loop_frame env _ _ false _ _ _ _ _ _ _ _ hrec
      split at h
      · simp at h
      · rename_i feat_names ds4 ws2 hfeat
        have f4 := save_features_loop_frame env _ _ false _ _ _ _ _ _ _ _ hfeat
        split at h
        · simp at h
        · rename_i class_names ds5 ws3 hcl
          have f5 := save_classes_loop_frame env _ _ false _ _ _ _ _ _ _ _ hcl
          split at h
          · simp at h
          · rename_i enroll_names ds6 ws4 hen
            have f6 := save_enrollments_loop_frame env _ _ false _ _ _ _ _ _ _ _ hen
            split at h
            · simp at h
            · rename_i trial_names ds7 ws5 htr
              have f7 := save_trials_loop_frame env _ _ false _ _ _ _ _ _ _ _ htr
              simp only [Except.ok.injEq, Prod.mk.injEq] at h
              obtain ⟨hdoc, hds, hws⟩ := h
              subst hds
              simp_all

/-- Witness for C9 at `dsC9w`: the save writes the segment and recording
files and produces the manifest, yet the stale stored paths
(`old/segments.csv`, `old/mic.csv`) and the separator survive
unchanged. -/
theorem c9_save_no_update_preserves_paths_w :
    dsC9w.save envC "data" false none =
      .ok ({ segments := some "segments.csv",
             recordings := some [("mic", "mic.csv")],
             features := none, classes := none, enrollments := none,
             trials := none },
           dsC9w,
           [{ path := "data/segments.csv", sep := some none },
            { path := "data/mic.csv", sep := some none }])
    ∧ dsC9w._segments_path = some "old/segments.csv"
    ∧ dsC9w._recordings_paths = some [("mic", some "old/mic.csv")] := by
  have hsave : dsC9w.save envC "data" false none =
      .ok ({ segments := some "segments.csv",
             recordings := some [("mic", "mic.csv")],
             features := none, classes := none, enrollments := none,
             trials := none },
           dsC9w,
           [{ path := "data/segments.csv", sep := some none },
            { path := "data/mic.csv", sep := some none }]) := rfl
  have h := c9_save_no_update_preserves_paths envC dsC9w "data" none _ _ _ hsave
  exact ⟨hsave, h.1.symm.trans rfl, h.2.1.symm.trans rfl⟩

/-- Claim C10 counterexample: the claim's "every later materialization of
a still-unloaded Slot on this registry instance parses its file with the
new separator" fails at full Slot scope.  On a registry whose stored
separator is the newly set tab, a still-unloaded trials Slot materializes
through `TrialKey.load(path)` — called with no separator argument at all
(lines 149-153) — and a still-unloaded segment Slot raises AttributeError
before any parse (line 97), while a recordings Slot does parse with the
stored separator. -/
theorem c10_unloaded_slot_new_separator_cex :
    dsC10x.table_sep = some "\t"
    ∧ (dsC10x.trials_value envC "trial" true).2 = [Ev.trial_key_load "trial.csv"]
    ∧ dsC10x.segments envC true = (.error .attributeError, [])
    ∧ (dsC10x.recordings_value envC "mic" true).2
        = [Ev.recording_set_load "mic.csv" (some "\t")] := by
  exact ⟨rfl, rfl, rfl, rfl⟩

/-- Claim C10 (amended): `save` with `update_paths=true` and an explicit
separator overwrites the stored `table_sep` with that separator before any
table is written, and every table write of the call uses the given
separator (or none, for trials).  On any registry carrying the resulting
stored separator — in particular any later state of this instance that
has not changed `table_sep` again — a materialization of a still-unloaded
Slot through the four separator-taking group accessors (recordings,
features, classes, enrollments) parses its file with the new separator;
trials parsers take no separator and the segment accessor raises before
parsing (see the counterexample).  With `update_paths=false` the stored
`table_sep` is untouched while the writes still use the given
separator. -/
theorem c10_save_table_sep_update {T : Type} (env : Env T) (ds : Dataset T)
    (path : String) (s : String)
    (doc1 : Doc) (ds1' : Dataset T) (ws1 : List WriteEv)
    (doc2 : Doc) (ds2' : Dataset T) (ws2 : List WriteEv)
    (h1 : ds.save env path true (some s) = .ok (doc1, ds1', ws1))
    (h2 : ds.save env path false (some s) = .ok (doc2, ds2', ws2)) :
    ds1'.table_sep = some s
    ∧ (∀ w ∈ ws1, w.sep = some (some s) ∨ w.sep = none)
    ∧ (∀ (dx : Dataset T) (key p : String) (objs : List (String × Option T))
          (paths : List (String × Option String)),
        dx.table_sep = ds1'.table_sep →
        dget objs key = some none → dget paths key = some (some p) →
        (dx._recordings = some objs → dx._recordings_paths = some paths →
          ∀ kl : Bool, (dx.recordings_value env key kl).2
            = [.recording_set_load p (some s)])
        ∧ (dx._features = some objs → dx._features_paths = some paths →
          ∀ kl : Bool, (dx.features_value env key kl).2
            = [.feature_set_load p (some s)])
        ∧ (dx._classes = some objs → dx._classes_paths = some paths →
          ∀ kl : Bool, (dx.classes_value env key kl).2
            = [.class_info_load p (some s)])
        ∧ (dx._enrollments = some objs → dx._enrollments_paths = some paths →
          ∀ kl : Bool, (dx.enrollments_value env key kl).2
            = [.enrollment_map_load p (some s)]))
    ∧ ds2'.table_sep = ds.table_sep
    ∧ (∀ w ∈ ws2, w.sep = some (some s) ∨ w.sep = none) := by
  have ht1 := save_table_sep env ds path true (some s) doc1 ds1' ws1 h1
  have hw1 := save_writes_sep env ds path true (some s) doc1 ds1' ws1 h1
  have ht2 := save_table_sep env ds path false (some s) doc2 ds2' ws2 h2
  have hw2 := save_writes_sep env ds path false (some s) doc2 ds2' ws2 h2
  simp only [effSep, if_true, if_false, Bool.false_eq_true, reduceIte] at ht1 hw1 ht2 hw2
  refine ⟨ht1, hw1, ?_, ht2, hw2⟩
  intro dx key p objs paths hts hgo hgp
  have hxs : dx.table_sep = some s := hts.trans ht1
  refine ⟨?_, ?_, ?_, ?_⟩
  · intro ho hp kl
    have href := recordings_value_ref env dx key p objs paths ho hgo hp hgp
    cases kl
    · rw [href.2]
      simp [hxs]
    · rw [href.1]
      simp [hxs]
  · intro ho hp kl
    have href := features_value_ref env dx key p objs paths ho hgo hp hgp
    cases kl
    · rw [href.2]
      simp [hxs]
    · rw [href.1]
      simp [hxs]
  · intro ho hp kl
    have href := classes_value_ref env dx key p objs paths ho hgo hp hgp
    cases kl
    · rw [href.2]
      simp [hxs]
    · rw [href.1]
      simp [hxs]
  · intro ho hp kl
    have href := enrollments_value_ref env dx key p objs paths ho hgo hp hgp
    cases kl
    · rw [href.2]
      simp [hxs]
    · rw [href.1]
      simp [hxs]

/-- Witness for the amended C10 at `dsW`: with `update_paths=true` the
resulting registry's separator becomes the tab just passed, with
`update_paths=false` it stays `none`, and a still-unloaded recordings
Slot on a registry carrying the new separator (`dsC10x`) is materialized
with exactly one load that passes the tab separator. -/
theorem c10_save_table_sep_update_w :
    ({ dsW with
        _segments_path := some "data/segments.tsv", table_sep := some "\t" } :
      Dataset Nat).table_sep = some "\t"
    ∧ dsW.table_sep = (none : Option String)
    ∧ (dsC10x.recordings_value envC "mic" true).2
        = [Ev.recording_set_load "mic.csv" (some "\t")] := by
  have h1 : dsW.save envC "data" true (some "\t") =
      .ok ({ segments := some "segments.tsv", recordings := none,
             features := none, classes := none, enrollments := none,
             trials := none },
           { dsW with
               _segments_path := some "data/segments.tsv", table_sep := some "\t" },
           [{ path := "data/segments.tsv", sep := some (some "\t") }]) := rfl
  have h2 : dsW.save envC "data" false (some "\t") =
      .ok ({ segments := some "segments.tsv", recordings := none,
             features := none, classes := none, enrollments := none,
             trials := none },
           dsW,
           [{ path := "data/segments.tsv", sep := some (some "\t") }]) := rfl
  have h := c10_save_table_sep_update envC dsW "data" "\t" _ _ _ _ _ _ h1 h2
  refine ⟨h.1, h.2.2.2.1, ?_⟩
  exact (h.2.2.1 dsC10x "mic" "mic.csv" [("mic", none)]
    [("mic", some "mic.csv")] rfl rfl rfl).1 rfl rfl true
